import Mathlib

/-!
Shallow embedding of `src/python/ray/autoscaler/updater.py` (node updater of
the ray autoscaler).  Pure string manipulation (`shlex.quote`,
`os.path.dirname`, command assembly) is translated directly; the effectful
parts (remote command execution, file sync, provider tag-store calls, the
wall clock) are modelled by explicit environments of response functions and
by traces of events.  The wall clock is a natural number threaded through the
polling loops; `time.sleep` advances it, and every provider poll is charged
at least one time unit, so each loop is structural recursion on the fuel
`deadline - now` (the Python loops terminate for the same reason: real time
advances through each iteration).
-/

deriving instance DecidableEq for Except

namespace RayUpdater

/-- Constant `NODE_START_WAIT_S = 300` from the source. -/
def NODE_START_WAIT_S : Nat := 300

/-- Constant `READY_CHECK_INTERVAL = 5` from the source. -/
def READY_CHECK_INTERVAL : Nat := 5

/-- Modelled from the spec: the tag keys and status values come from
`ray.autoscaler.tags`, a module imported by the source but not part of this
source tree.  The spec names the statuses `waiting_for_ssh`, `syncing_files`,
`setting_up`, `up_to_date`, `update_failed`; the claims only need the tag
keys and status values to be fixed, pairwise distinct strings. -/
def TAG_RAY_NODE_STATUS : String := "ray-node-status"

/-- Modelled from the spec: tag key for the stored runtime fingerprint. -/
def TAG_RAY_RUNTIME_CONFIG : String := "ray-runtime-config"

/-- Modelled from the spec: status while waiting for the remote shell. -/
def STATUS_WAITING_FOR_SSH : String := "waiting_for_ssh"

/-- Modelled from the spec: status while syncing file mounts. -/
def STATUS_SYNCING_FILES : String := "syncing_files"

/-- Modelled from the spec: status while running init and setup commands. -/
def STATUS_SETTING_UP : String := "setting_up"

/-- Modelled from the spec: terminal success status. -/
def STATUS_UP_TO_DATE : String := "up_to_date"

/-- Modelled from the spec: terminal failure status. -/
def STATUS_UPDATE_FAILED : String := "update_failed"

/-- The single-quote character, written by code point to keep it out of
string literals. -/
def squoteChar : Char := Char.ofNat 39

/-- The double-quote character, written by code point. -/
def dquoteChar : Char := Char.ofNat 34

/-- Characters `shlex.quote` treats as safe: ASCII alphanumerics, underscore,
at sign, percent, plus, equals, colon, comma, dot, slash and dash (the
complement of the `_find_unsafe` regex in `shlex`). -/
def shlexSafeChar (c : Char) : Bool :=
  c.isAlphanum || c = '_' || c = '@' || c = '%' || c = '+' || c = '=' ||
  c = ':' || c = ',' || c = '.' || c = '/' || c = '-'

/-- Python `shlex.quote`: the empty string becomes two single quotes; a
string of safe characters is returned unchanged; otherwise each single quote
is replaced by the five-character sequence quote, double quote, quote,
double quote, quote, and the whole string is wrapped in single quotes. -/
def shlexQuote (s : String) : String :=
  if s = "" then String.mk [squoteChar, squoteChar]
  else if s.data.all shlexSafeChar then s
  else
    String.mk
      (squoteChar ::
        (s.data.flatMap fun c =>
          if c = squoteChar then
            [squoteChar, dquoteChar, squoteChar, dquoteChar, squoteChar]
          else [c]) ++ [squoteChar])

/-- The fixed shell preamble prepended by `with_interactive`. -/
def force_interactive : String :=
  "true && source ~/.bashrc && export OMP_NUM_THREADS=1 PYTHONWARNINGS=ignore && "

/-- `with_interactive(cmd)` from the source: wraps a command to run inside an
interactive login shell. -/
def with_interactive (cmd : String) : List String :=
  ["bash", "--login", "-c", "-i", shlexQuote (force_interactive ++ cmd)]

/-- `" ".join(l)` on a list of argv words. -/
def joinSpace (l : List String) : String := String.intercalate " " l

/-- Remove trailing slash characters from a character list. -/
def stripTrailingSlashes (l : List Char) : List Char :=
  (l.reverse.dropWhile fun c => c = '/').reverse

/-- POSIX `os.path.dirname`: everything up to the last slash, with trailing
slashes stripped from the head unless the head is all slashes; the empty
string when there is no slash. -/
def dirname (p : String) : String :=
  let cs := p.data
  if cs.contains '/' then
    let head := (cs.reverse.dropWhile fun c => c ≠ '/').reverse
    if head.all (fun c => c = '/') then String.mk head
    else String.mk (stripTrailingSlashes head)
  else ""

/-- Python truthiness of a numeric-or-None argument: truthy exactly when it
is present and nonzero. -/
def truthyNat : Option Nat → Bool
  | none => false
  | some n => n != 0

/-- Python truthiness of a string-or-None argument: truthy exactly when it is
present and nonempty. -/
def truthyStr : Option String → Bool
  | none => false
  | some s => s ≠ ""

/-! ## ProviderIpGetter -/

/-- Provider responses seen by `ProviderIpGetter`, as functions of the
current clock value: `is_terminated` and the internal/external address
lookup performed by `get_ip` (the internal-vs-external choice is inside the
lookup function). -/
structure IpEnv where
  is_terminated : Nat → Bool
  get_ip : Nat → Option String

/-- Provider queries issued by `ProviderIpGetter.wait_for_ip`, stamped with
the clock value at which they happen. -/
inductive IpEv
  | termQuery (t : Nat)
  | ipQuery (t : Nat)
deriving DecidableEq, Repr

/-- Python exceptions `wait_for_ip` can raise before polling: the explicit
`ValueError` of the contract guard, and the `TypeError` of comparing
`time.time()` to `None` when neither bound ends up set. -/
inductive IpErr
  | valueError
  | typeError
deriving DecidableEq, Repr

/-- The polling loop of `wait_for_ip`: while the clock is before the
deadline and the provider does not report the node terminated, query the
address; return it if present, otherwise sleep and retry.  `fuel` is
`deadline - now` at entry; each iteration advances the clock by the sleep
plus one unit charged to the provider queries, so the fuel bounds the
iteration count and the zero-fuel case coincides with the loop-exit case. -/
def ip_loop (env : IpEnv) (dl sleep_s : Nat) :
    Nat → Nat → Option String × List IpEv × Nat
  | 0, now => (none, [], now)
  | fuel + 1, now =>
    if now < dl then
      if env.is_terminated now then (none, [IpEv.termQuery now], now)
      else
        match env.get_ip now with
        | some ip => (some ip, [IpEv.termQuery now, IpEv.ipQuery now], now)
        | none =>
          let r := ip_loop env dl sleep_s fuel (now + sleep_s + 1)
          (r.1, IpEv.termQuery now :: IpEv.ipQuery now :: r.2.1, r.2.2)
    else (none, [], now)

/-- `ProviderIpGetter.wait_for_ip`: raises `ValueError` when both `timeout`
and `deadline` are truthy; otherwise a truthy `timeout` overwrites the
deadline with `now + timeout`; a final deadline of `None` makes the loop
comparison raise `TypeError`; otherwise the polling loop runs. -/
def wait_for_ip (env : IpEnv) (timeout deadline : Option Nat)
    (sleep_between_gets now : Nat) :
    Except IpErr (Option String) × List IpEv × Nat :=
  if truthyNat timeout && truthyNat deadline then (.error .valueError, [], now)
  else
    let dl? := if truthyNat timeout then some (now + timeout.getD 0) else deadline
    match dl? with
    | none => (.error .typeError, [], now)
    | some dl =>
      let r := ip_loop env dl sleep_between_gets (dl - now) now
      (.ok r.1, r.2.1, r.2.2)

/-! ## NodeUpdater -/

/-- Observable actions of one `NodeUpdater` run: provider tag writes and
tag reads, `is_terminated` polls of the readiness loop, remote command
executions, file-mount syncs, nested address-resolution queries, and the
known-hosts cleanup call. -/
inductive UEv
  | setTags (tags : List (String × String))
  | nodeTagsQuery
  | termQuery
  | runCmd (cmd : String)
  | syncUp (src target : String)
  | ip (e : IpEv)
  | knownHostsCleanup (host : String)
deriving DecidableEq, Repr

/-- Exceptions a `NodeUpdater` run can raise: the `assert False` of
`wait_ready`, the per-mount `assert os.path.exists` of `sync_file_mounts`,
a non-zero remote command, a failed sync, the `TypeError` of passing a
`None` host to `forget_known_host` when address resolution timed out, and
the (unreachable here) contract violation of the nested ip getter. -/
inductive UpdErr
  | unableToConnect
  | assertPathMissing (p : String)
  | cmdFailed (cmd : String)
  | syncFailed (src target : String)
  | noneHostTypeError
  | ipContractViolation
deriving DecidableEq, Repr

/-- Environment of one `NodeUpdater` run: the provider responses (extending
the ip-getter environment), the node-tags read, and the outcomes of remote
commands, filesystem tests and syncs.  Readiness polls (`uptime`) depend on
the clock; commands after the readiness phase do not read the clock in the
source, so their outcomes are clock-free response functions. -/
structure Env extends IpEnv where
  node_tags : List (String × String)
  uptimeOk : Nat → Bool
  uptimeDur : Nat → Nat
  cmdOk : String → Bool
  pathExists : String → Bool
  isDir : String → Bool
  syncOk : String → String → Bool

/-- The immutable inputs of a `NodeUpdater` (the fields its protocol reads):
file mounts as a list in mapping insertion order, with `os.path.expanduser`
already applied to the local paths, the three command lists, the desired
runtime fingerprint, and the known-hosts cleanup flag. -/
structure Updater where
  file_mounts : List (String × String)
  initialization_commands : List String
  setup_commands : List String
  ray_start_commands : List String
  runtime_hash : String
  remove_node_from_known_hosts_before_use : Bool

/-- The readiness-polling loop of `wait_ready`: while the clock is before
the deadline and the node is not terminated, run `uptime`; success returns
true, failure sleeps `READY_CHECK_INTERVAL` and retries.  `fuel` is
`deadline - now` at entry; every retry advances the clock by at least the
five-second sleep, so the fuel bounds the iterations and the zero-fuel case
coincides with the loop-exit case. -/
def ready_loop (env : Env) (dl : Nat) :
    Nat → Nat → Bool × List UEv × Nat
  | 0, now => (false, [], now)
  | fuel + 1, now =>
    if now < dl then
      if env.is_terminated now then (false, [UEv.termQuery], now)
      else if env.uptimeOk now then
        (true, [UEv.termQuery, UEv.runCmd "uptime"], now + env.uptimeDur now)
      else
        let r := ready_loop env dl fuel (now + env.uptimeDur now + READY_CHECK_INTERVAL)
        (r.1, UEv.termQuery :: UEv.runCmd "uptime" :: r.2.1, r.2.2)
    else (false, [], now)

/-- `NodeUpdater.wait_ready`: runs the polling loop; falling out of the loop
(deadline elapsed or node terminated) hits `assert False, "Unable to connect
to node"`. -/
def wait_ready (env : Env) (dl now : Nat) :
    Except UpdErr Unit × List UEv × Nat :=
  let r := ready_loop env dl (dl - now) now
  (if r.1 then .ok () else .error .unableToConnect, r.2.1, r.2.2)

/-- Sequential execution of a command list through `cmd_runner.run`: the
first failing command aborts the remainder (its invocation is still
recorded in the trace). -/
def runCommands (env : Env) : List String → Except UpdErr Unit × List UEv
  | [] => (.ok (), [])
  | c :: rest =>
    if env.cmdOk c then
      let r := runCommands env rest
      (r.1, UEv.runCmd c :: r.2)
    else (.error (.cmdFailed c), [UEv.runCmd c])

/-- The trailing-slash normalization inside `sync_file_mounts`: when the
local path is a directory, both the local and the remote path get a trailing
slash if they lack one. -/
def normalize_mount (env : Env) (remote loc : String) : String × String :=
  if env.isDir loc then
    ((if remote.endsWith "/" then remote else remote ++ "/"),
     (if loc.endsWith "/" then loc else loc ++ "/"))
  else (remote, loc)

/-- `NodeUpdater.sync_file_mounts`: for each mount in mapping order, assert
the local path exists, normalize trailing slashes, run `mkdir -p` of the
remote parent directory, then sync the mount up.  A failing step aborts the
remaining mounts. -/
def sync_file_mounts (env : Env) : List (String × String) → Except UpdErr Unit × List UEv
  | [] => (.ok (), [])
  | (remote, loc) :: rest =>
    if env.pathExists loc then
      let n := normalize_mount env remote loc
      let mkdirCmd := "mkdir -p " ++ dirname n.1
      if env.cmdOk mkdirCmd then
        if env.syncOk n.2 n.1 then
          let r := sync_file_mounts env rest
          (r.1, UEv.runCmd mkdirCmd :: UEv.syncUp n.2 n.1 :: r.2)
        else (.error (.syncFailed n.2 n.1), [UEv.runCmd mkdirCmd, UEv.syncUp n.2 n.1])
      else (.error (.cmdFailed mkdirCmd), [UEv.runCmd mkdirCmd])
    else (.error (.assertPathMissing loc), [])

/-- `NodeUpdater.remove_node_from_known_hosts`: resolve the node address
with `wait_for_ip(timeout=NODE_START_WAIT_S)` (sleep 10 between attempts),
then call `forget_known_host`; its `TimeoutError` and `FileNotFoundError`
are caught and logged, so a resolved address never fails this step.  When
resolution returns `None`, `forget_known_host(None)` raises an uncaught
`TypeError` from `subprocess.run`. -/
def remove_node_from_known_hosts (env : Env) (now : Nat) :
    Except UpdErr Unit × List UEv × Nat :=
  match wait_for_ip env.toIpEnv (some NODE_START_WAIT_S) none 10 now with
  | (.ok (some ip), tr, fin) => (.ok (), tr.map UEv.ip ++ [UEv.knownHostsCleanup ip], fin)
  | (.ok none, tr, fin) => (.error .noneHostTypeError, tr.map UEv.ip, fin)
  | (.error _, tr, fin) => (.error .ipContractViolation, tr.map UEv.ip, fin)

/-- The first phase of `do_update`: the optional known-hosts cleanup, the
`waiting_for_ssh` tag write, and the readiness wait against the deadline
`now + NODE_START_WAIT_S` taken after the cleanup. -/
def pre_phase (env : Env) (u : Updater) (now : Nat) : Except UpdErr Unit × List UEv :=
  match (if u.remove_node_from_known_hosts_before_use
         then remove_node_from_known_hosts env now
         else (.ok (), [], now)) with
  | (.error e, tr, _) => (.error e, tr)
  | (.ok _, khTr, now0) =>
    let rd := wait_ready env (now0 + NODE_START_WAIT_S) now0
    (rd.1, khTr ++ UEv.setTags [(TAG_RAY_NODE_STATUS, STATUS_WAITING_FOR_SSH)] :: rd.2.1)

/-- The fingerprint-mismatch branch of `do_update`: write the
`syncing_files` tag, sync the file mounts, write the `setting_up` tag, then
run the initialization commands and the setup commands in order; the first
failure aborts the remainder. -/
def full_convergence (env : Env) (u : Updater) : Except UpdErr Unit × List UEv :=
  let syncTag := UEv.setTags [(TAG_RAY_NODE_STATUS, STATUS_SYNCING_FILES)]
  let setTag := UEv.setTags [(TAG_RAY_NODE_STATUS, STATUS_SETTING_UP)]
  let sy := sync_file_mounts env u.file_mounts
  match sy.1 with
  | .error e => (.error e, syncTag :: sy.2)
  | .ok _ =>
    let ini := runCommands env u.initialization_commands
    match ini.1 with
    | .error e => (.error e, syncTag :: sy.2 ++ setTag :: ini.2)
    | .ok _ =>
      let se := runCommands env u.setup_commands
      match se.1 with
      | .error e => (.error e, syncTag :: sy.2 ++ setTag :: ini.2 ++ se.2)
      | .ok _ => (.ok (), syncTag :: sy.2 ++ setTag :: ini.2 ++ se.2)

/-- `NodeUpdater.do_update`: known-hosts cleanup, `waiting_for_ssh` tag,
readiness wait; then read the node tags and compare the stored runtime
fingerprint with the desired one — on a match skip straight past sync,
init and setup; otherwise run the full convergence branch; in either case
finish with the ray-start commands. -/
def do_update (env : Env) (u : Updater) (now : Nat) : Except UpdErr Unit × List UEv :=
  match pre_phase env u now with
  | (.error e, tr) => (.error e, tr)
  | (.ok _, pre) =>
    let tail :=
      if env.node_tags.lookup TAG_RAY_RUNTIME_CONFIG = some u.runtime_hash
      then ((Except.ok () : Except UpdErr Unit), ([] : List UEv))
      else full_convergence env u
    match tail.1 with
    | .error e => (.error e, pre ++ UEv.nodeTagsQuery :: tail.2)
    | .ok _ =>
      let st := runCommands env u.ray_start_commands
      (st.1, pre ++ UEv.nodeTagsQuery :: tail.2 ++ st.2)

/-- `NodeUpdater.run`: call `do_update`; on an exception, write the
`update_failed` status tag and re-raise; on success, write `up_to_date` and
the desired runtime fingerprint together in one `set_node_tags` call and set
`self.exitcode = 0` (an incoming exitcode is left unchanged on failure). -/
def run (env : Env) (u : Updater) (now : Nat) (exitcode : Int) :
    Except UpdErr Unit × List UEv × Int :=
  match do_update env u now with
  | (.error e, tr) =>
    (.error e, tr ++ [UEv.setTags [(TAG_RAY_NODE_STATUS, STATUS_UPDATE_FAILED)]], exitcode)
  | (.ok _, tr) =>
    (.ok (),
     tr ++ [UEv.setTags [(TAG_RAY_NODE_STATUS, STATUS_UP_TO_DATE),
                         (TAG_RAY_RUNTIME_CONFIG, u.runtime_hash)]],
     0)

/-- `NodeUpdaterThread.__init__` sets `self.exitcode = -1` as the
not-yet-finished sentinel. -/
def threadInitExitcode : Int := -1

/-- A `NodeUpdaterThread` executing: `NodeUpdater.run` starting from the
sentinel exitcode; the resulting `Int` is the exitcode the coordinating
caller observes after the thread finishes. -/
def thread_run (env : Env) (u : Updater) (now : Nat) :
    Except UpdErr Unit × List UEv × Int :=
  run env u now threadInitExitcode

/-! ## Command runners -/

/-- Process-execution responses: `check_call` and `check_output` on an argv
list (the secure-shell runner) or on a joined string with `shell=True` (the
Kubernetes runner). -/
structure ProcEnv where
  callOk : List String → Bool
  callStrOk : String → Bool
  outputList : List String → String
  outputStr : String → String

/-- What one `run` invocation of a command runner does: normal return
(with captured output when requested), the explicit both-arguments usage
`Exception` of the Kubernetes runner, the always-failing port-forward path,
`sys.exit(1)` after logging the quoted command, a raised
`click.ClickException` carrying its message, a re-raised
`CalledProcessError`, or a `TypeError` from formatting a `None` command. -/
inductive RunOutcome
  | ok (output : Option String)
  | usageError (msg : String)
  | portForwardError
  | processExit (code : Nat) (loggedCmd : String)
  | clickException (msg : String)
  | calledProcessError
  | typeError
deriving DecidableEq, Repr

/-- Discriminator: is the outcome a raised `click.ClickException`. -/
def RunOutcome.isClickException : RunOutcome → Bool
  | .clickException _ => true
  | _ => false

/-- Discriminator: is the outcome a `sys.exit`. -/
def RunOutcome.isProcessExit : RunOutcome → Bool
  | .processExit _ _ => true
  | _ => false

/-- The quoting applied to a failing command before it is surfaced:
`" ".join(final_cmd[:-1] + [quote(final_cmd[-1])])`. -/
def quoted_command (l : List String) : String :=
  joinSpace (l.dropLast ++ [shlexQuote (l.getLastD "")])

/-- The message of the Kubernetes both-arguments usage error (the source
concatenates two adjacent string literals without a space). -/
def kubeUsageMsg : String :=
  "exec with Kubernetes cannot forward ports and executecommands together."

/-- `KubernetesCommandRunner`: the fields its `run` reads (`ns` models the
`namespace` attribute, a reserved word in Lean). -/
structure KubernetesCommandRunner where
  ns : String
  node_id : String

/-- The `kubectl -n namespace` command stem. -/
def KubernetesCommandRunner.kubectl (k : KubernetesCommandRunner) : List String :=
  ["kubectl", "-n", k.ns]

/-- The argv the Kubernetes runner builds for a command:
`kubectl -n ns exec -it|-i node_id -- bash --login -c -i <quoted cmd>`. -/
def KubernetesCommandRunner.final_cmd (k : KubernetesCommandRunner)
    (cmd : String) (allocate_tty : Bool) : List String :=
  k.kubectl ++ ["exec", if allocate_tty then "-it" else "-i", k.node_id, "--"] ++
    with_interactive cmd

/-- `KubernetesCommandRunner.run`: a truthy command together with a truthy
port-forward argument raises the usage `Exception`; a port-forward alone
blocks on the forwarding process and always ends in an error; otherwise the
wrapped command runs via `check_call`/`check_output` with `shell=True`, and
a non-zero exit either logs the quoted command and calls `sys.exit(1)`
(`exit_on_fail`) or re-raises the `CalledProcessError`. -/
def KubernetesCommandRunner.run (k : KubernetesCommandRunner) (env : ProcEnv)
    (cmd : Option String) (allocate_tty exit_on_fail : Bool)
    (port_forward : List (Nat × Nat)) (with_output : Bool) : RunOutcome :=
  if truthyStr cmd && !port_forward.isEmpty then .usageError kubeUsageMsg
  else if !port_forward.isEmpty then .portForwardError
  else
    match cmd with
    | none => .typeError
    | some c =>
      let fc := k.final_cmd c allocate_tty
      if env.callStrOk (joinSpace fc) then
        .ok (if with_output then some (env.outputStr (joinSpace fc)) else none)
      else if exit_on_fail then .processExit 1 (quoted_command fc)
      else .calledProcessError

/-- `SSHCommandRunner`: the fields its `run` reads, modelled at the point
after `set_ssh_ip_if_required` has resolved and cached `ssh_ip` (address
resolution itself is `wait_for_ip`, modelled above). -/
structure SSHCommandRunner where
  node_id : String
  ssh_private_key : String
  ssh_user : String
  ssh_control_path : String
  ssh_ip : String

/-- `get_default_ssh_options`: the identity file plus the fixed `-o`
option pairs, with the connect timeout substituted. -/
def SSHCommandRunner.get_default_ssh_options (r : SSHCommandRunner)
    (connect_timeout : Nat) : List String :=
  ["-i", r.ssh_private_key] ++
    (([("ConnectTimeout", toString connect_timeout ++ "s"),
       ("StrictHostKeyChecking", "no"),
       ("ControlMaster", "auto"),
       ("ControlPath", r.ssh_control_path ++ "/%C"),
       ("ControlPersist", "10s"),
       ("IdentitiesOnly", "yes"),
       ("ExitOnForwardFailure", "yes"),
       ("ServerAliveInterval", "5"),
       ("ServerAliveCountMax", "3")] : List (String × String)).flatMap
      fun kv => ["-o", kv.1 ++ "=" ++ kv.2])

/-- The argv the secure-shell runner builds: `ssh`, `-tt` when a tty is
requested, one `-L remote:localhost:local` pair per port forward, the
default options, `user@ip`, then either the wrapped command (truthy `cmd`)
or the keep-alive sleep loop. -/
def SSHCommandRunner.final_cmd (r : SSHCommandRunner) (cmd : Option String)
    (timeout : Nat) (allocate_tty : Bool) (port_forward : List (Nat × Nat)) :
    List String :=
  (if allocate_tty then ["ssh", "-tt"] else ["ssh"]) ++
    (port_forward.flatMap fun lr =>
      ["-L", toString lr.2 ++ ":localhost:" ++ toString lr.1]) ++
    r.get_default_ssh_options timeout ++ [r.ssh_user ++ "@" ++ r.ssh_ip] ++
    (if truthyStr cmd then with_interactive (cmd.getD "")
     else ["while true; do sleep 86400; done"])

/-- `SSHCommandRunner.run`: builds the argv (there is no guard against
combining a command with port forwards — both end up in the same argv) and
runs it via `check_call`/`check_output`; a non-zero exit either raises a
`click.ClickException` carrying the quoted command (`exit_on_fail`) or
re-raises the `CalledProcessError`.  Returns the outcome and the argv. -/
def SSHCommandRunner.run (r : SSHCommandRunner) (env : ProcEnv)
    (cmd : Option String) (timeout : Nat) (allocate_tty exit_on_fail : Bool)
    (port_forward : List (Nat × Nat)) (with_output : Bool) :
    RunOutcome × List String :=
  let fc := r.final_cmd cmd timeout allocate_tty port_forward
  if env.callOk fc then
    (.ok (if with_output then some (env.outputList fc) else none), fc)
  else if exit_on_fail then
    (.clickException ("Command failed: \n\n  " ++ quoted_command fc ++ "\n"), fc)
  else (.calledProcessError, fc)

/-! ## Derived notions used by the claim statements -/

/-- Is an event a file-mount sync. -/
def UEv.isSyncUp : UEv → Bool
  | .syncUp _ _ => true
  | _ => false

/-- The remote commands executed in a trace, in order. -/
def cmdEvents (tr : List UEv) : List String :=
  tr.filterMap fun e =>
    match e with
    | UEv.runCmd c => some c
    | _ => none

/-- The per-mount event pair `sync_file_mounts` emits for one mount when it
succeeds: the `mkdir -p` of the remote parent, then the sync. -/
def mount_events (env : Env) (m : String × String) : List UEv :=
  let n := normalize_mount env m.1 m.2
  [UEv.runCmd ("mkdir -p " ++ dirname n.1), UEv.syncUp n.2 n.1]

/-- The clock stamp of a provider query event. -/
def IpEv.time : IpEv → Nat
  | .termQuery t => t
  | .ipQuery t => t

/-! ## Concrete instances used by witnesses and counterexamples -/

/-- An ip-getter environment whose node is never terminated and whose
address is available at once. -/
def ipEnvAlways : IpEnv :=
  { is_terminated := fun _ => false, get_ip := fun _ => some "198.51.100.7" }

/-- An ip-getter environment whose address never becomes available. -/
def ipEnvNever : IpEnv :=
  { is_terminated := fun _ => false, get_ip := fun _ => none }

/-- An updater environment for a healthy node: reachable at the first poll,
stored fingerprint `h1`, every command, path test and sync succeeding. -/
def envReady : Env :=
  { is_terminated := fun _ => false
    get_ip := fun _ => some "10.0.0.1"
    node_tags := [(TAG_RAY_RUNTIME_CONFIG, "h1")]
    uptimeOk := fun _ => true
    uptimeDur := fun _ => 0
    cmdOk := fun _ => true
    pathExists := fun _ => true
    isDir := fun _ => false
    syncOk := fun _ _ => true }

/-- An updater environment whose node never answers the readiness probe and
is never reported terminated. -/
def envNeverReady : Env :=
  { envReady with uptimeOk := fun _ => false }

/-- An updater environment in which every local path except `missing`
exists. -/
def envMissingPath : Env :=
  { envReady with pathExists := fun p => p != "missing" }

/-- A minimal updater input: no file mounts, no init or setup commands, one
ray-start command, desired fingerprint `h1`, known-hosts cleanup off. -/
def uPlain : Updater :=
  { file_mounts := []
    initialization_commands := []
    setup_commands := []
    ray_start_commands := ["ray start"]
    runtime_hash := "h1"
    remove_node_from_known_hosts_before_use := false }

/-- An updater input with two file mounts, one command of each kind, and a
desired fingerprint differing from the stored `h1`. -/
def uFull : Updater :=
  { file_mounts := [("/app/a", "a"), ("/app/b/", "b/")]
    initialization_commands := ["init1"]
    setup_commands := ["setup1"]
    ray_start_commands := ["ray start"]
    runtime_hash := "h2"
    remove_node_from_known_hosts_before_use := false }

/-- The two-mount list whose second mount has the missing local path. -/
def mountsMissing : List (String × String) :=
  [("/app/a", "a"), ("/app/b", "missing")]

/-- A secure-shell runner with its address already resolved. -/
def sshW : SSHCommandRunner :=
  { node_id := "node-1"
    ssh_private_key := "/keys/k.pem"
    ssh_user := "ubuntu"
    ssh_control_path := "/tmp/ray_ssh_aaaaaaaaaa/bbbbbbbbbb"
    ssh_ip := "203.0.113.5" }

/-- A Kubernetes runner. -/
def kubeW : KubernetesCommandRunner := { ns := "ray", node_id := "pod-1" }

/-- A process environment in which every call succeeds. -/
def procOk : ProcEnv :=
  { callOk := fun _ => true
    callStrOk := fun _ => true
    outputList := fun _ => ""
    outputStr := fun _ => "" }

/-- A process environment in which every call exits non-zero. -/
def procFail : ProcEnv :=
  { procOk with callOk := fun _ => false, callStrOk := fun _ => false }

/-! ## Helper lemmas -/

/-- When the readiness probe never succeeds and the node is never reported
terminated, the polling loop returns false for every fuel and start time. -/
theorem ready_loop_false (env : Env) (dl : Nat)
    (hup : ∀ t, env.uptimeOk t = false)
    (hterm : ∀ t, env.is_terminated t = false) :
    ∀ fuel now, (ready_loop env dl fuel now).1 = false := by
  intro fuel
  induction fuel with
  | zero => intro now; rfl
  | succ k ih =>
    intro now
    by_cases h : now < dl
    · simp [ready_loop, h, hup, hterm, ih]
    · simp [ready_loop, h]

/-- Every event of the readiness loop is a termination poll or an `uptime`
probe. -/
theorem ready_loop_mem (env : Env) (dl : Nat) :
    ∀ fuel now e, e ∈ (ready_loop env dl fuel now).2.1 →
      e = UEv.termQuery ∨ e = UEv.runCmd "uptime" := by
  intro fuel
  induction fuel with
  | zero => intro now e he; simp [ready_loop] at he
  | succ k ih =>
    intro now e he
    by_cases h : now < dl
    · cases ht : env.is_terminated now with
      | true => simp [ready_loop, h, ht] at he; simp [he]
      | false =>
        cases hu : env.uptimeOk now with
        | true => simp [ready_loop, h, ht, hu] at he; rcases he with he | he <;> simp [he]
        | false =>
          simp only [ready_loop, if_pos h, ht, hu, Bool.false_eq_true, if_false,
            List.mem_cons] at he
          rcases he with he | he | he
          · simp [he]
          · simp [he]
          · exact ih _ e he
    · simp [ready_loop, h] at he

/-- The commands a readiness loop executes form a block of `uptime`
probes. -/
theorem ready_loop_cmdEvents (env : Env) (dl : Nat) :
    ∀ fuel now, ∃ n,
      cmdEvents (ready_loop env dl fuel now).2.1 = List.replicate n "uptime" := by
  intro fuel
  induction fuel with
  | zero => intro now; exact ⟨0, rfl⟩
  | succ k ih =>
    intro now
    by_cases h : now < dl
    · cases ht : env.is_terminated now with
      | true => exact ⟨0, by simp [ready_loop, h, ht, cmdEvents]⟩
      | false =>
        cases hu : env.uptimeOk now with
        | true => exact ⟨1, by simp [ready_loop, h, ht, hu, cmdEvents]⟩
        | false =>
          obtain ⟨n, hn⟩ := ih (now + env.uptimeDur now + READY_CHECK_INTERVAL)
          refine ⟨n + 1, ?_⟩
          simp only [ready_loop, if_pos h, ht, hu, Bool.false_eq_true, if_false]
          simpa [cmdEvents, List.replicate_succ] using hn
    · exact ⟨0, by simp [ready_loop, h, cmdEvents]⟩

/-- Every provider query the ip-getter loop issues happens strictly before
the deadline. -/
theorem ip_loop_mem_time (env : IpEnv) (dl s : Nat) :
    ∀ fuel now e, e ∈ (ip_loop env dl s fuel now).2.1 → e.time < dl := by
  intro fuel
  induction fuel with
  | zero => intro now e he; simp [ip_loop] at he
  | succ k ih =>
    intro now e he
    by_cases h : now < dl
    · cases ht : env.is_terminated now with
      | true =>
        simp [ip_loop, h, ht] at he
        simp [he, IpEv.time, h]
      | false =>
        cases hip : env.get_ip now with
        | some ip =>
          simp [ip_loop, h, ht, hip] at he
          rcases he with he | he <;> simp [he, IpEv.time, h]
        | none =>
          simp only [ip_loop, if_pos h, ht, Bool.false_eq_true, if_false, hip,
            List.mem_cons] at he
          rcases he with he | he | he
          · simp [he, IpEv.time, h]
          · simp [he, IpEv.time, h]
          · exact ih _ e he
    · simp [ip_loop, h] at he

/-- A command list that ran to completion executed exactly its commands, in
order. -/
theorem runCommands_ok (env : Env) :
    ∀ cs, (runCommands env cs).1 = .ok () →
      (runCommands env cs).2 = cs.map UEv.runCmd := by
  intro cs
  induction cs with
  | nil => intro _; rfl
  | cons c rest ih =>
    intro h
    cases hc : env.cmdOk c with
    | true =>
      simp only [runCommands, hc, if_true] at h ⊢
      simpa using ih h
    | false => simp [runCommands, hc] at h

/-! ## C4: readiness polling stops at the deadline and fails -/

/-- C4: for every run of `NodeUpdater.wait_ready` in which the node never
answers the readiness probe and is never reported terminated, the polling
loop (a total function, so it cannot poll forever) ends with the
`assert False` failure `unableToConnect` once the clock passes the
deadline. -/
theorem wait_ready_deadline_fails (env : Env) (dl now : Nat)
    (hup : ∀ t, env.uptimeOk t = false)
    (hterm : ∀ t, env.is_terminated t = false) :
    (wait_ready env dl now).1 = .error .unableToConnect := by
  have h := ready_loop_false env dl hup hterm (dl - now) now
  simp [wait_ready, h]

/-- Witness for C4 at a concrete never-ready, never-terminated environment
with deadline 20 from time 0. -/
theorem wait_ready_deadline_fails_witness :
    (∀ t, envNeverReady.uptimeOk t = false) ∧
    (∀ t, envNeverReady.is_terminated t = false) ∧
    (wait_ready envNeverReady 20 0).1 = .error .unableToConnect :=
  ⟨fun _ => rfl, fun _ => rfl,
    wait_ready_deadline_fails envNeverReady 20 0 (fun _ => rfl) (fun _ => rfl)⟩

/-! ## C5: both timeout and deadline supplied to wait_for_ip -/

/-- C5 counterexample: a call supplying both arguments, `timeout=0` and
`deadline=100`, does not raise the contract violation; it polls the
provider (a termination query and an address query are issued) and returns
the address. -/
theorem wait_for_ip_both_supplied_counterexample :
    wait_for_ip ipEnvAlways (some 0) (some 100) 10 0 =
      (.ok (some "198.51.100.7"), [IpEv.termQuery 0, IpEv.ipQuery 0], 0) := by
  decide

/-- C5 as amended: when both arguments are truthy in Python's sense (the
timeout present and nonzero, the deadline present and nonzero), the call
fails immediately with the `ValueError` and issues no provider query. -/
theorem wait_for_ip_truthy_guard (env : IpEnv) (timeout deadline : Option Nat)
    (s now : Nat) (ht : truthyNat timeout = true)
    (hd : truthyNat deadline = true) :
    wait_for_ip env timeout deadline s now = (.error .valueError, [], now) := by
  simp [wait_for_ip, ht, hd]

/-- Witness for the amended C5 at `timeout=5`, `deadline=9`. -/
theorem wait_for_ip_truthy_guard_witness :
    truthyNat (some 5) = true ∧ truthyNat (some 9) = true ∧
    wait_for_ip ipEnvAlways (some 5) (some 9) 10 0 = (.error .valueError, [], 0) :=
  ⟨by decide, by decide,
    wait_for_ip_truthy_guard ipEnvAlways (some 5) (some 9) 10 0 (by decide) (by decide)⟩

/-! ## C10: timeout 0 with a deadline bypasses the guard -/

/-- C10: a call with `timeout=0` and a present deadline does not raise the
both-arguments contract violation, runs the polling loop against the
supplied deadline, and every provider query it issues happens strictly
before that deadline. -/
theorem wait_for_ip_zero_timeout_polls (env : IpEnv) (d s now : Nat) :
    (wait_for_ip env (some 0) (some d) s now).1 ≠ .error .valueError ∧
    wait_for_ip env (some 0) (some d) s now =
      (.ok (ip_loop env d s (d - now) now).1,
       (ip_loop env d s (d - now) now).2.1,
       (ip_loop env d s (d - now) now).2.2) ∧
    ∀ e ∈ (wait_for_ip env (some 0) (some d) s now).2.1, e.time < d := by
  refine ⟨?_, ?_, ?_⟩
  · simp [wait_for_ip, truthyNat]
  · simp [wait_for_ip, truthyNat]
  · intro e he
    simp only [wait_for_ip, truthyNat] at he
    exact ip_loop_mem_time env d s (d - now) now e (by simpa using he)

/-- Witness for C10: with an address that never appears, `timeout=0` and
`deadline=3` with sleep 1 polls at times 0 and 2 — both before the
deadline — and the inner bound applies to the first query. -/
theorem wait_for_ip_zero_timeout_polls_witness :
    (wait_for_ip ipEnvNever (some 0) (some 3) 1 0).2.1 =
      [IpEv.termQuery 0, IpEv.ipQuery 0, IpEv.termQuery 2, IpEv.ipQuery 2] ∧
    (IpEv.termQuery 0).time < 3 :=
  ⟨by decide,
    (wait_for_ip_zero_timeout_polls ipEnvNever 3 1 0).2.2 (IpEv.termQuery 0) (by decide)⟩

/-! ## C3: mounts synced in order, mkdir before each sync -/

/-- C3: a mount list that synced to completion was processed in mapping
insertion order, each mount contributing exactly its remote-parent
`mkdir -p` immediately followed by its own sync. -/
theorem sync_file_mounts_order (env : Env) :
    ∀ mounts, (sync_file_mounts env mounts).1 = .ok () →
      (sync_file_mounts env mounts).2 = mounts.flatMap (mount_events env) := by
  intro mounts
  induction mounts with
  | nil => intro _; rfl
  | cons m rest ih =>
    rcases m with ⟨remote, loc⟩
    intro h
    cases hp : env.pathExists loc with
    | false => simp [sync_file_mounts, hp] at h
    | true =>
      cases hc : env.cmdOk ("mkdir -p " ++ dirname (normalize_mount env remote loc).1) with
      | false => simp [sync_file_mounts, hp, hc] at h
      | true =>
        cases hs : env.syncOk (normalize_mount env remote loc).2
            (normalize_mount env remote loc).1 with
        | false => simp [sync_file_mounts, hp, hc, hs] at h
        | true =>
          simp only [sync_file_mounts, hp, hc, hs, if_true] at h ⊢
          simp [mount_events, ih h]

/-- Witness for C3 on the two-mount input: both mounts succeed and the
trace is the ordered mkdir-then-sync pair for each mount. -/
theorem sync_file_mounts_order_witness :
    (sync_file_mounts envReady uFull.file_mounts).1 = .ok () ∧
    (sync_file_mounts envReady uFull.file_mounts).2 =
      uFull.file_mounts.flatMap (mount_events envReady) :=
  ⟨by decide, sync_file_mounts_order envReady uFull.file_mounts (by decide)⟩

/-! ## C8: a missing local path aborts at that mount, not before any sync -/

/-- Splitting a mount list after a successfully synced block: the block's
events happen first, then the remainder runs as if alone. -/
theorem sync_file_mounts_append (env : Env) :
    ∀ a b, (sync_file_mounts env a).1 = .ok () →
      sync_file_mounts env (a ++ b) =
        ((sync_file_mounts env b).1,
         (sync_file_mounts env a).2 ++ (sync_file_mounts env b).2) := by
  intro a
  induction a with
  | nil => intro b _; simp [sync_file_mounts]
  | cons m rest ih =>
    rcases m with ⟨remote, loc⟩
    intro b h
    cases hp : env.pathExists loc with
    | false => simp [sync_file_mounts, hp] at h
    | true =>
      cases hc : env.cmdOk ("mkdir -p " ++ dirname (normalize_mount env remote loc).1) with
      | false => simp [sync_file_mounts, hp, hc] at h
      | true =>
        cases hs : env.syncOk (normalize_mount env remote loc).2
            (normalize_mount env remote loc).1 with
        | false => simp [sync_file_mounts, hp, hc, hs] at h
        | true =>
          simp only [List.cons_append, sync_file_mounts, hp, hc, hs, if_true] at h ⊢
          simp [ih b h]

/-- C8 counterexample: with the first mount's local path present and the
second missing, `sync_file_mounts` performs the mkdir and the sync of the
first mount before failing on the second — refuting that no mkdir and no
sync happens for any mount. -/
theorem sync_missing_path_counterexample :
    sync_file_mounts envMissingPath mountsMissing =
      (.error (.assertPathMissing "missing"),
       [UEv.runCmd "mkdir -p /app", UEv.syncUp "a" "/app/a"]) := by
  decide

/-- C8 as amended: the existence assertion is checked per mount, in
iteration order; when the mounts before the missing one all synced, the run
fails fatally exactly at the missing mount — the earlier mounts are already
synced, and no mkdir or sync happens for the missing mount or any later
one. -/
theorem sync_missing_path_aborts_at_mount (env : Env)
    (pre post : List (String × String)) (remote loc : String)
    (hok : (sync_file_mounts env pre).1 = .ok ())
    (hmiss : env.pathExists loc = false) :
    sync_file_mounts env (pre ++ (remote, loc) :: post) =
      (.error (.assertPathMissing loc), (sync_file_mounts env pre).2) := by
  rw [sync_file_mounts_append env pre ((remote, loc) :: post) hok]
  simp [sync_file_mounts, hmiss]

/-- Witness for the amended C8 on the concrete two-mount input. -/
theorem sync_missing_path_aborts_at_mount_witness :
    (sync_file_mounts envMissingPath [("/app/a", "a")]).1 = .ok () ∧
    envMissingPath.pathExists "missing" = false ∧
    sync_file_mounts envMissingPath ([("/app/a", "a")] ++ [("/app/b", "missing")]) =
      (.error (.assertPathMissing "missing"),
       (sync_file_mounts envMissingPath [("/app/a", "a")]).2) :=
  ⟨by decide, by decide,
    sync_missing_path_aborts_at_mount envMissingPath [("/app/a", "a")] []
      "/app/b" "missing" (by decide) (by decide)⟩

/-! ## C2: terminal status tag of NodeUpdater.run -/

/-- C2: when `do_update` succeeds, `run` succeeds and its last tag-store
write is the single `set_node_tags` call carrying both `up_to_date` and the
desired runtime fingerprint; when `do_update` raises, `run` writes
`update_failed` as its last tag-store action and re-raises the same
error. -/
theorem run_terminal_status (env : Env) (u : Updater) (now : Nat) (ec : Int) :
    ((do_update env u now).1 = .ok () →
      (run env u now ec).1 = .ok () ∧
      (run env u now ec).2.1.getLast? =
        some (UEv.setTags [(TAG_RAY_NODE_STATUS, STATUS_UP_TO_DATE),
                           (TAG_RAY_RUNTIME_CONFIG, u.runtime_hash)])) ∧
    (∀ e, (do_update env u now).1 = .error e →
      (run env u now ec).1 = .error e ∧
      (run env u now ec).2.1.getLast? =
        some (UEv.setTags [(TAG_RAY_NODE_STATUS, STATUS_UPDATE_FAILED)])) := by
  rcases hdu : do_update env u now with ⟨r, tr⟩
  constructor
  · intro h
    have hr : r = .ok () := h
    subst hr
    simp [run, hdu, List.getLast?_concat]
  · intro e h
    have hr : r = .error e := h
    subst hr
    simp [run, hdu, List.getLast?_concat]

/-- Witness for C2 on the healthy fast-path environment: the run succeeds
and ends with the combined status-and-fingerprint tag write. -/
theorem run_terminal_status_witness :
    (do_update envReady uPlain 0).1 = .ok () ∧
    (run envReady uPlain 0 (-1)).2.1.getLast? =
      some (UEv.setTags [(TAG_RAY_NODE_STATUS, STATUS_UP_TO_DATE),
                         (TAG_RAY_RUNTIME_CONFIG, uPlain.runtime_hash)]) :=
  ⟨by decide, ((run_terminal_status envReady uPlain 0 (-1)).1 (by decide)).2⟩

/-! ## C9: NodeUpdaterThread exitcode -/

/-- C9 counterexample: on a node that never becomes ready, the thread's run
fails, yet the exitcode after the run equals the not-yet-finished sentinel
-1 — no non-zero code distinct from the sentinel is ever stored on
failure. -/
theorem thread_exitcode_counterexample :
    (thread_run envNeverReady uPlain 0).1 ≠ .ok () ∧
    (thread_run envNeverReady uPlain 0).2.2 = threadInitExitcode := by
  decide

/-- C9 as amended: the exitcode starts at the sentinel -1; a successful run
sets it to 0; a failing run re-raises and leaves the exitcode at the
sentinel -1 (so it never reports the success code on failure, but failure
is not distinguishable from not-yet-finished by the exitcode alone). -/
theorem thread_exitcode (env : Env) (u : Updater) (now : Nat) :
    threadInitExitcode = -1 ∧
    ((thread_run env u now).1 = .ok () → (thread_run env u now).2.2 = 0) ∧
    ((thread_run env u now).1 ≠ .ok () →
      (thread_run env u now).2.2 = threadInitExitcode) := by
  refine ⟨rfl, ?_, ?_⟩
  all_goals
    intro h
    rcases hdu : do_update env u now with ⟨r, tr⟩
    simp only [thread_run, run, hdu] at h ⊢
  · cases r with
    | ok v => rfl
    | error e => simp at h
  · cases r with
    | ok v => simp at h
    | error e => rfl

/-- Witness for the amended C9: a successful concrete run ends with
exitcode 0. -/
theorem thread_exitcode_witness :
    (thread_run envReady uPlain 0).1 = .ok () ∧
    (thread_run envReady uPlain 0).2.2 = 0 :=
  ⟨by decide, (thread_exitcode envReady uPlain 0).2.1 (by decide)⟩

/-! ## C6: command and port-forward in one invocation -/

/-- The secure-shell runner passes the same argv to the process runner on
every branch of its `run`. -/
theorem ssh_run_argv (r : SSHCommandRunner) (env : ProcEnv) (cmd : Option String)
    (t : Nat) (tty eof : Bool) (pf : List (Nat × Nat)) (w : Bool) :
    (SSHCommandRunner.run r env cmd t tty eof pf w).2 = r.final_cmd cmd t tty pf := by
  simp only [SSHCommandRunner.run]
  split
  · rfl
  · split
    · rfl
    · rfl

/-- C6 counterexample: the secure-shell runner accepts a command together
with a port-forward specification — the call succeeds instead of failing,
and the argv it executes carries both the forwarding flag and the wrapped
command. -/
theorem ssh_run_both_counterexample :
    (SSHCommandRunner.run sshW procOk (some "echo hi") 120 false false
        [(8000, 8265)] false).1 = .ok none ∧
    "-L" ∈ (SSHCommandRunner.run sshW procOk (some "echo hi") 120 false false
        [(8000, 8265)] false).2 ∧
    shlexQuote (force_interactive ++ "echo hi") ∈
      (SSHCommandRunner.run sshW procOk (some "echo hi") 120 false false
        [(8000, 8265)] false).2 := by
  decide

/-- C6 as amended: only the Kubernetes runner rejects a truthy command
combined with a truthy port-forward argument (raising the usage
`Exception`); the secure-shell runner performs no such check — it never
raises a usage error and instead executes an argv containing both the
forwarding flags and the wrapped command. -/
theorem run_command_port_forward_exclusion :
    (∀ (k : KubernetesCommandRunner) (env : ProcEnv) (cmd : Option String)
       (tty eof : Bool) (pf : List (Nat × Nat)) (w : Bool),
       truthyStr cmd = true → pf ≠ [] →
       KubernetesCommandRunner.run k env cmd tty eof pf w = .usageError kubeUsageMsg) ∧
    (∀ (r : SSHCommandRunner) (env : ProcEnv) (c : String) (t : Nat)
       (tty eof : Bool) (pf : List (Nat × Nat)) (w : Bool), c ≠ "" → pf ≠ [] →
       (∀ m, (SSHCommandRunner.run r env (some c) t tty eof pf w).1 ≠ .usageError m) ∧
       "-L" ∈ (SSHCommandRunner.run r env (some c) t tty eof pf w).2 ∧
       shlexQuote (force_interactive ++ c) ∈
         (SSHCommandRunner.run r env (some c) t tty eof pf w).2) := by
  constructor
  · intro k env cmd tty eof pf w hc hpf
    have hne : pf.isEmpty = false := by
      cases pf with
      | nil => exact absurd rfl hpf
      | cons p rest => rfl
    simp [KubernetesCommandRunner.run, hc, hne]
  · intro r env c t tty eof pf w hc hpf
    refine ⟨?_, ?_, ?_⟩
    · intro m
      simp only [SSHCommandRunner.run]
      split
      · simp
      · split
        · simp
        · simp
    · rw [ssh_run_argv]
      rcases pf with _ | ⟨p, rest⟩
      · exact absurd rfl hpf
      · simp [SSHCommandRunner.final_cmd]
    · rw [ssh_run_argv]
      have ht : truthyStr (some c) = true := by simpa [truthyStr] using hc
      simp [SSHCommandRunner.final_cmd, ht, with_interactive]

/-- Witness for the amended C6: the Kubernetes runner rejects the concrete
combined invocation. -/
theorem run_command_port_forward_exclusion_witness :
    truthyStr (some "echo hi") = true ∧
    ([((8000 : Nat), (8265 : Nat))] ≠ []) ∧
    KubernetesCommandRunner.run kubeW procOk (some "echo hi") false false
        [(8000, 8265)] false = .usageError kubeUsageMsg :=
  ⟨by decide, by simp,
    run_command_port_forward_exclusion.1 kubeW procOk (some "echo hi") false false
      [(8000, 8265)] false (by decide) (by simp)⟩

/-! ## C7: behavior of exit_on_fail on a non-zero exit -/

/-- C7 counterexample: the secure-shell runner with `exit_on_fail` set and a
failing command raises a catchable `click.ClickException` — it does not
terminate the process. -/
theorem ssh_exit_on_fail_counterexample :
    ((SSHCommandRunner.run sshW procFail (some "echo hi") 120 false true
        [] false).1).isClickException = true ∧
    ((SSHCommandRunner.run sshW procFail (some "echo hi") 120 false true
        [] false).1).isProcessExit = false := by
  decide

/-- C7 as amended: on a non-zero exit with `exit_on_fail` set, the
Kubernetes runner logs the properly quoted offending command and terminates
the process with `sys.exit(1)`, while the secure-shell runner instead raises
a catchable `click.ClickException` whose message carries the properly
quoted offending command. -/
theorem exit_on_fail_surface :
    (∀ (k : KubernetesCommandRunner) (env : ProcEnv) (c : String) (tty w : Bool),
       truthyStr (some c) = true →
       env.callStrOk (joinSpace (k.final_cmd c tty)) = false →
       KubernetesCommandRunner.run k env (some c) tty true [] w =
         .processExit 1 (quoted_command (k.final_cmd c tty))) ∧
    (∀ (r : SSHCommandRunner) (env : ProcEnv) (cmd : Option String) (t : Nat)
       (tty : Bool) (pf : List (Nat × Nat)) (w : Bool),
       env.callOk (r.final_cmd cmd t tty pf) = false →
       (SSHCommandRunner.run r env cmd t tty true pf w).1 =
         .clickException ("Command failed: \n\n  " ++
           quoted_command (r.final_cmd cmd t tty pf) ++ "\n")) := by
  constructor
  · intro k env c tty w hc hfail
    simp [KubernetesCommandRunner.run, hc, hfail]
  · intro r env cmd t tty pf w hfail
    simp [SSHCommandRunner.run, hfail]

/-- Witness for the amended C7: the Kubernetes runner exits the process on
the concrete failing command. -/
theorem exit_on_fail_surface_witness :
    truthyStr (some "echo hi") = true ∧
    procFail.callStrOk (joinSpace (kubeW.final_cmd "echo hi" false)) = false ∧
    KubernetesCommandRunner.run kubeW procFail (some "echo hi") false true [] false =
      .processExit 1 (quoted_command (kubeW.final_cmd "echo hi" false)) :=
  ⟨by decide, rfl,
    exit_on_fail_surface.1 kubeW procFail "echo hi" false false (by decide) rfl⟩

/-! ## C1: fingerprint match skips sync and setup, ray start always runs -/

/-- The trace of `wait_ready` is the trace of its polling loop. -/
theorem wait_ready_trace (env : Env) (dl now : Nat) :
    (wait_ready env dl now).2.1 = (ready_loop env dl (dl - now) now).2.1 := rfl

/-- Every event of the known-hosts cleanup step is a nested
address-resolution query or the cleanup call itself. -/
theorem remove_known_hosts_mem (env : Env) (now : Nat) :
    ∀ e ∈ (remove_node_from_known_hosts env now).2.1,
      (∃ ie, e = UEv.ip ie) ∨ ∃ h, e = UEv.knownHostsCleanup h := by
  intro e he
  unfold remove_node_from_known_hosts at he
  rcases hw : wait_for_ip env.toIpEnv (some NODE_START_WAIT_S) none 10 now with ⟨r, tr, fin⟩
  rw [hw] at he
  rcases r with err | ip
  · simp only [List.mem_map] at he
    obtain ⟨ie, _, rfl⟩ := he
    exact Or.inl ⟨ie, rfl⟩
  · rcases ip with _ | ip
    · simp only [List.mem_map] at he
      obtain ⟨ie, _, rfl⟩ := he
      exact Or.inl ⟨ie, rfl⟩
    · simp only [List.mem_append, List.mem_map, List.mem_singleton] at he
      rcases he with ⟨ie, _, rfl⟩ | rfl
      · exact Or.inl ⟨ie, rfl⟩
      · exact Or.inr ⟨ip, rfl⟩

/-- The known-hosts cleanup step executes no remote command. -/
theorem kh_cmdEvents (env : Env) (now : Nat) :
    cmdEvents (remove_node_from_known_hosts env now).2.1 = [] := by
  rw [cmdEvents, List.filterMap_eq_nil_iff]
  intro e he
  rcases remove_known_hosts_mem env now e he with ⟨ie, rfl⟩ | ⟨h, rfl⟩ <;> rfl

/-- Every event of the pre-phase (known-hosts cleanup, `waiting_for_ssh`
tag, readiness polling) is of one of five shapes; in particular it is never
a sync and never the `syncing_files` or `setting_up` tag write. -/
theorem pre_phase_mem (env : Env) (u : Updater) (now : Nat) :
    ∀ e ∈ (pre_phase env u now).2,
      e = UEv.setTags [(TAG_RAY_NODE_STATUS, STATUS_WAITING_FOR_SSH)] ∨
      e = UEv.termQuery ∨ e = UEv.runCmd "uptime" ∨
      (∃ ie, e = UEv.ip ie) ∨ ∃ h, e = UEv.knownHostsCleanup h := by
  intro e he
  unfold pre_phase at he
  by_cases hk : u.remove_node_from_known_hosts_before_use
  · rw [if_pos hk] at he
    rcases hkh : remove_node_from_known_hosts env now with ⟨r, khTr, n0⟩
    rw [hkh] at he
    rcases r with err | v
    · have := remove_known_hosts_mem env now e (by rw [hkh]; exact he)
      tauto
    · simp only [List.mem_append, List.mem_cons] at he
      rcases he with h1 | h1 | h1
      · have := remove_known_hosts_mem env now e (by rw [hkh]; exact h1)
        tauto
      · tauto
      · rw [wait_ready_trace] at h1
        have := ready_loop_mem env (n0 + NODE_START_WAIT_S) _ _ e h1
        tauto
  · rw [if_neg hk] at he
    simp only [List.mem_append, List.mem_cons] at he
    rcases he with h1 | h1 | h1
    · simp at h1
    · tauto
    · rw [wait_ready_trace] at h1
      have := ready_loop_mem env (now + NODE_START_WAIT_S) _ _ e h1
      tauto

/-- Command events distribute over appended traces. -/
theorem cmdEvents_append (a b : List UEv) :
    cmdEvents (a ++ b) = cmdEvents a ++ cmdEvents b := by
  simp [cmdEvents]

/-- A tag write contributes no command event. -/
theorem cmdEvents_setTags_cons (ts : List (String × String)) (l : List UEv) :
    cmdEvents (UEv.setTags ts :: l) = cmdEvents l := rfl

/-- A node-tags read contributes no command event. -/
theorem cmdEvents_ntq_cons (l : List UEv) :
    cmdEvents (UEv.nodeTagsQuery :: l) = cmdEvents l := rfl

/-- The commands executed during the pre-phase form a block of `uptime`
readiness probes. -/
theorem pre_phase_cmdEvents (env : Env) (u : Updater) (now : Nat) :
    ∃ n, cmdEvents (pre_phase env u now).2 = List.replicate n "uptime" := by
  unfold pre_phase
  by_cases hk : u.remove_node_from_known_hosts_before_use
  · rw [if_pos hk]
    rcases hkh : remove_node_from_known_hosts env now with ⟨r, khTr, n0⟩
    have hkh2 : cmdEvents khTr = [] := by
      have h2 := kh_cmdEvents env now
      rw [hkh] at h2
      exact h2
    rcases r with err | v
    · exact ⟨0, hkh2⟩
    · obtain ⟨n, hn⟩ :=
        ready_loop_cmdEvents env (n0 + NODE_START_WAIT_S)
          (n0 + NODE_START_WAIT_S - n0) n0
      refine ⟨n, ?_⟩
      dsimp only
      rw [cmdEvents_append, hkh2, cmdEvents_setTags_cons, wait_ready_trace, hn]
      rfl
  · rw [if_neg hk]
    obtain ⟨n, hn⟩ :=
      ready_loop_cmdEvents env (now + NODE_START_WAIT_S)
        (now + NODE_START_WAIT_S - now) now
    refine ⟨n, ?_⟩
    dsimp only
    rw [cmdEvents_append, cmdEvents_setTags_cons, wait_ready_trace, hn]
    rfl

/-- The command events of a mapped command list are that list. -/
theorem cmdEvents_map_runCmd (l : List String) : cmdEvents (l.map UEv.runCmd) = l := by
  induction l with
  | nil => rfl
  | cons c rest ih =>
    simp only [List.map_cons, cmdEvents, List.filterMap_cons] at ih ⊢
    rw [ih]

/-- A successful full-convergence branch synced all mounts and its trace is
the `syncing_files` tag, the sync trace, the `setting_up` tag, then the
initialization and setup commands in order. -/
theorem full_convergence_ok (env : Env) (u : Updater)
    (h : (full_convergence env u).1 = .ok ()) :
    (sync_file_mounts env u.file_mounts).1 = .ok () ∧
    (full_convergence env u).2 =
      UEv.setTags [(TAG_RAY_NODE_STATUS, STATUS_SYNCING_FILES)] ::
        (sync_file_mounts env u.file_mounts).2 ++
      UEv.setTags [(TAG_RAY_NODE_STATUS, STATUS_SETTING_UP)] ::
        (u.initialization_commands.map UEv.runCmd ++
         u.setup_commands.map UEv.runCmd) := by
  simp only [full_convergence] at h ⊢
  rcases hsy : (sync_file_mounts env u.file_mounts).1 with e | v
  · rw [hsy] at h
    simp at h
  · cases v
    rw [hsy] at h
    dsimp only at h ⊢
    rcases hini : (runCommands env u.initialization_commands).1 with e | v2
    · rw [hini] at h
      simp at h
    · cases v2
      rw [hini] at h
      dsimp only at h ⊢
      rcases hse : (runCommands env u.setup_commands).1 with e | v3
      · rw [hse] at h
        simp at h
      · cases v3
        dsimp only
        refine ⟨rfl, ?_⟩
        rw [runCommands_ok env u.initialization_commands hini,
            runCommands_ok env u.setup_commands hse]
        simp

/-- C1: on a run of `do_update` that completes successfully, if the stored
runtime-fingerprint tag equals the desired `runtime_hash` then no
file-mount sync happens, neither the `syncing_files` nor the `setting_up`
status is written (so no initialization or setup command phase runs), and
the commands executed are exactly the readiness probes followed by the
ray-start commands in full; if they differ, the trace is the pre-phase,
then the sync phase for all mounts, then all initialization and setup
commands, all strictly before the ray-start commands, which run in full. -/
theorem do_update_fingerprint_paths (env : Env) (u : Updater) (now : Nat)
    (hok : (do_update env u now).1 = .ok ()) :
    (env.node_tags.lookup TAG_RAY_RUNTIME_CONFIG = some u.runtime_hash →
      ((do_update env u now).2.filter UEv.isSyncUp = [] ∧
       UEv.setTags [(TAG_RAY_NODE_STATUS, STATUS_SYNCING_FILES)] ∉ (do_update env u now).2 ∧
       UEv.setTags [(TAG_RAY_NODE_STATUS, STATUS_SETTING_UP)] ∉ (do_update env u now).2 ∧
       ∃ n, cmdEvents (do_update env u now).2 =
         List.replicate n "uptime" ++ u.ray_start_commands)) ∧
    (env.node_tags.lookup TAG_RAY_RUNTIME_CONFIG ≠ some u.runtime_hash →
      ∃ pre syncTr,
        (do_update env u now).2 =
          pre ++ UEv.setTags [(TAG_RAY_NODE_STATUS, STATUS_SYNCING_FILES)] :: syncTr ++
            UEv.setTags [(TAG_RAY_NODE_STATUS, STATUS_SETTING_UP)] ::
              (u.initialization_commands.map UEv.runCmd ++
               u.setup_commands.map UEv.runCmd ++
               u.ray_start_commands.map UEv.runCmd) ∧
        sync_file_mounts env u.file_mounts = (.ok (), syncTr)) := by
  rcases hpp : pre_phase env u now with ⟨pr, pre⟩
  have hpre_mem : ∀ e ∈ pre,
      e = UEv.setTags [(TAG_RAY_NODE_STATUS, STATUS_WAITING_FOR_SSH)] ∨
      e = UEv.termQuery ∨ e = UEv.runCmd "uptime" ∨
      (∃ ie, e = UEv.ip ie) ∨ ∃ h, e = UEv.knownHostsCleanup h := by
    intro e he
    exact pre_phase_mem env u now e (by rw [hpp]; exact he)
  have hpre_cmd : ∃ n, cmdEvents pre = List.replicate n "uptime" := by
    obtain ⟨n, hn⟩ := pre_phase_cmdEvents env u now
    rw [hpp] at hn
    exact ⟨n, hn⟩
  rcases pr with perr | pv
  · rw [do_update, hpp] at hok
    simp at hok
  · constructor
    · intro hm
      have hdu : do_update env u now =
          ((runCommands env u.ray_start_commands).1,
           pre ++ UEv.nodeTagsQuery ::
             (([] : List UEv) ++ (runCommands env u.ray_start_commands).2)) := by
        rw [do_update, hpp]
        simp [hm]
      have hst : (runCommands env u.ray_start_commands).1 = .ok () := by
        rw [hdu] at hok
        exact hok
      have hsttr := runCommands_ok env u.ray_start_commands hst
      rw [hdu, hsttr]
      simp only [List.nil_append]
      refine ⟨?_, ?_, ?_, ?_⟩
      · rw [List.filter_eq_nil_iff]
        intro e he
        simp only [List.mem_append, List.mem_cons, List.mem_map] at he
        rcases he with h1 | h1 | h1
        · rcases hpre_mem e h1 with h2 | h2 | h2 | ⟨ie, h2⟩ | ⟨hh, h2⟩ <;>
            subst h2 <;> simp [UEv.isSyncUp]
        · subst h1; simp [UEv.isSyncUp]
        · obtain ⟨c, _, rfl⟩ := h1; simp [UEv.isSyncUp]
      · intro hmem
        simp only [List.mem_append, List.mem_cons, List.mem_map] at hmem
        rcases hmem with h1 | h1 | h1
        · rcases hpre_mem _ h1 with h2 | h2 | h2 | ⟨ie, h2⟩ | ⟨hh, h2⟩ <;>
            simp [STATUS_WAITING_FOR_SSH, STATUS_SYNCING_FILES,
              TAG_RAY_NODE_STATUS] at h2
        · simp at h1
        · obtain ⟨c, _, h2⟩ := h1; simp at h2
      · intro hmem
        simp only [List.mem_append, List.mem_cons, List.mem_map] at hmem
        rcases hmem with h1 | h1 | h1
        · rcases hpre_mem _ h1 with h2 | h2 | h2 | ⟨ie, h2⟩ | ⟨hh, h2⟩ <;>
            simp [STATUS_WAITING_FOR_SSH, STATUS_SETTING_UP,
              TAG_RAY_NODE_STATUS] at h2
        · simp at h1
        · obtain ⟨c, _, h2⟩ := h1; simp at h2
      · obtain ⟨n, hn⟩ := hpre_cmd
        refine ⟨n, ?_⟩
        rw [cmdEvents_append, hn, cmdEvents_ntq_cons, cmdEvents_map_runCmd]
    · intro hm
      have hdu : do_update env u now =
          ((runCommands env u.ray_start_commands).1,
           pre ++ UEv.nodeTagsQuery ::
             ((full_convergence env u).2 ++ (runCommands env u.ray_start_commands).2)) := by
        rw [do_update, hpp]
        simp only [if_neg hm]
        rcases hfc : (full_convergence env u).1 with e | v
        · exfalso
          rw [do_update, hpp] at hok
          simp only [if_neg hm] at hok
          rw [hfc] at hok
          simp at hok
        · cases v
          dsimp only
          simp [List.cons_append, List.append_assoc]
      have hfc : (full_convergence env u).1 = .ok () := by
        rw [do_update, hpp] at hok
        simp only [if_neg hm] at hok
        rcases hfc2 : (full_convergence env u).1 with e | v
        · rw [hfc2] at hok
          simp at hok
        · cases v
          rfl
      have hst : (runCommands env u.ray_start_commands).1 = .ok () := by
        rw [hdu] at hok
        exact hok
      obtain ⟨hsy, htr⟩ := full_convergence_ok env u hfc
      refine ⟨pre ++ [UEv.nodeTagsQuery], (sync_file_mounts env u.file_mounts).2, ?_, ?_⟩
      · rw [hdu, htr, runCommands_ok env u.ray_start_commands hst]
        simp
      · rw [← hsy]

/-- Witness for C1 on the healthy fast-path run: the stored and desired
fingerprints match, the run succeeds, no sync happens, neither intermediate
status is written, and the executed commands are one readiness probe
followed by the single ray-start command. -/
theorem do_update_fingerprint_paths_witness :
    (do_update envReady uPlain 0).1 = .ok () ∧
    ((do_update envReady uPlain 0).2.filter UEv.isSyncUp = [] ∧
     UEv.setTags [(TAG_RAY_NODE_STATUS, STATUS_SYNCING_FILES)] ∉ (do_update envReady uPlain 0).2 ∧
     UEv.setTags [(TAG_RAY_NODE_STATUS, STATUS_SETTING_UP)] ∉ (do_update envReady uPlain 0).2 ∧
     ∃ n, cmdEvents (do_update envReady uPlain 0).2 =
       List.replicate n "uptime" ++ uPlain.ray_start_commands) :=
  ⟨by decide,
    (do_update_fingerprint_paths envReady uPlain 0 (by decide)).1 (by decide)⟩

end RayUpdater
